import Mathlib

set_option maxHeartbeats 1000000

namespace Flick

/-! Shallow embedding of the flick remote-file-transfer core
    (src/domain/transfer.rs, src/remote_fs.rs, src/infra/ssh/client.rs,
    src/infra/ssh/auth.rs, src/infra/ssh/native_fallback.rs,
    src/infra/ssh/transfer.rs).  Machine state that the Rust code obtains
    from the outside world (sockets, the SSH library, the filesystem,
    child processes, clocks) is passed in explicitly as environment
    records; fallible Rust functions returning anyhow Result are modelled
    with Except String. -/

/-! ## TransferQueue (src/domain/transfer.rs) -/

/-- Direction of a transfer task. -/
inductive Direction
  | Upload
  | Download
deriving Repr, DecidableEq

/-- Lifecycle status of a transfer task. -/
inductive TransferStatus
  | Pending
  | InProgress
  | Completed
  | Failed (error : String)
deriving Repr, DecidableEq

/-- One transfer task.  Instant is modelled as an abstract Nat timestamp;
    the f32 progress fraction is modelled as a rational. -/
structure TransferTask where
  id : Nat
  direction : Direction
  local_path : String
  remote_path : String
  file_name : String
  size : Nat
  progress : ℚ
  status : TransferStatus
  started_at : Option Nat
deriving Repr, DecidableEq

/-- The task registry: ordered task list plus the monotonic id counter. -/
structure TransferQueue where
  tasks : List TransferTask
  next_id : Nat
deriving Repr, DecidableEq

def TransferQueue.new : TransferQueue := ⟨[], 0⟩

/-- enqueue pushes a Pending task with the next id and bumps the counter;
    it returns the new queue and the assigned id. -/
def TransferQueue.enqueue (q : TransferQueue) (direction : Direction)
    (local_path remote_path file_name : String) (size : Nat) :
    TransferQueue × Nat :=
  (⟨q.tasks ++
      [⟨q.next_id, direction, local_path, remote_path, file_name, size,
        0, TransferStatus.Pending, none⟩],
    q.next_id + 1⟩,
   q.next_id)

/-- Helper modelling iter_mut().find followed by a mutation: rewrite the
    first element satisfying p, leave everything else untouched. -/
def modifyFirst (p : TransferTask → Prop) [DecidablePred p]
    (f : TransferTask → TransferTask) :
    List TransferTask → List TransferTask
  | [] => []
  | t :: ts => if p t then f t :: ts else t :: modifyFirst p f ts

/-- update_progress: on the first task with the given id, set started_at on
    first call, store the fraction and force status InProgress.  The
    ambient clock value now stands for Instant::now. -/
def TransferQueue.update_progress (q : TransferQueue) (id : Nat)
    (progress : ℚ) (now : Nat) : TransferQueue :=
  { q with tasks :=
      (modifyFirst (fun t => t.id = id)
        (fun t =>
          { t with
            started_at := (match t.started_at with
              | none => some now
              | some s => some s)
            progress := progress
            status := TransferStatus.InProgress })
        q.tasks) }

/-- mark_completed: set fraction 1 and status Completed on the first task
    with the given id. -/
def TransferQueue.mark_completed (q : TransferQueue) (id : Nat) :
    TransferQueue :=
  { q with tasks :=
      (modifyFirst (fun t => t.id = id)
        (fun t =>
          { t with progress := 1, status := TransferStatus.Completed })
        q.tasks) }

/-- mark_failed: set status Failed with the reason, fraction untouched. -/
def TransferQueue.mark_failed (q : TransferQueue) (id : Nat)
    (error : String) : TransferQueue :=
  { q with tasks :=
      (modifyFirst (fun t => t.id = id)
        (fun t => { t with status := TransferStatus.Failed error })
        q.tasks) }

/-- snapshot returns the ordered task list. -/
def TransferQueue.snapshot (q : TransferQueue) : List TransferTask :=
  q.tasks

/-- clear_completed retains exactly the non-Completed tasks in order. -/
def TransferQueue.clear_completed (q : TransferQueue) : TransferQueue :=
  { q with tasks :=
      (q.tasks.filter (fun t => !(t.status == TransferStatus.Completed))) }

/-- Core of retry: scan for the first task with the given id; if its
    status is Failed, reset it to Pending with fraction 0 and no start
    time and report true, otherwise stop and report false. -/
def retryTasks (id : Nat) : List TransferTask → List TransferTask × Bool
  | [] => ([], false)
  | t :: ts =>
    if t.id = id then
      match t.status with
      | TransferStatus.Failed _ =>
        (({ t with
              status := TransferStatus.Pending
              progress := 0
              started_at := none }) :: ts,
         true)
      | _ => (t :: ts, false)
    else
      let r := retryTasks id ts
      (t :: r.1, r.2)

def TransferQueue.retry (q : TransferQueue) (id : Nat) :
    TransferQueue × Bool :=
  let r := retryTasks id q.tasks
  ({ q with tasks := r.1 }, r.2)

/-- get_task returns a copy of the first task with the given id. -/
def TransferQueue.get_task (q : TransferQueue) (id : Nat) :
    Option TransferTask :=
  q.tasks.find? (fun t => t.id == id)

/-! ## Shell escaping and remote command strings
    (src/remote_fs.rs, src/infra/ssh/client.rs, src/infra/ssh/transfer.rs) -/

/-- Single-quote character. -/
def sqChar : Char := Char.ofNat 39

/-- Backslash character. -/
def bsChar : Char := Char.ofNat 92

/-- Double-quote character. -/
def dqChar : Char := Char.ofNat 34

/-- Forward-slash character. -/
def slashChar : Char := Char.ofNat 47

/-- One step of str::replace mapping a single quote to the four-character
    sequence quote backslash quote quote. -/
def escSqChar (c : Char) : List Char :=
  if c = sqChar then [sqChar, bsChar, sqChar, sqChar] else [c]

/-- The replace call inside escape_shell_arg. -/
def replaceSq (s : String) : String :=
  String.mk (s.data.flatMap escSqChar)

/-- escape_shell_arg (src/remote_fs.rs): expand embedded single quotes
    and wrap the result in single quotes. -/
def escape_shell_arg (s : String) : String :=
  sqChar.toString ++ replaceSq s ++ sqChar.toString

/-- str::replace of backslash by forward slash, applied to remote paths
    before they are interpolated into commands. -/
def toUnix (s : String) : String :=
  String.mk (s.data.map (fun c => if c = bsChar then slashChar else c))

/-- Command built by remote_fs::remote_mkdir. -/
def remote_mkdir_cmd (path : String) : String :=
  "mkdir -p " ++ escape_shell_arg path

/-- Command built by remote_fs::remote_remove. -/
def remote_remove_cmd (path : String) (is_dir : Bool) : String :=
  if is_dir then "rm -rf " ++ escape_shell_arg path
  else "rm -f " ++ escape_shell_arg path

/-- Command built by remote_fs::remote_rename. -/
def remote_rename_cmd (old_path new_path : String) : String :=
  "mv " ++ escape_shell_arg old_path ++ " " ++ escape_shell_arg new_path

/-- Remote listing command built by remote_fs::list_dir_native. -/
def list_dir_native_cmd (path : String) : String :=
  "ls -la --time-style=long-iso " ++ escape_shell_arg path

/-- Command built by SshUploader::remote_mkdir (client.rs), in both auth
    modes: the backslash-normalised path has its single quotes expanded
    inline and is wrapped in single quotes. -/
def client_mkdir_cmd (path : String) : String :=
  "mkdir -p " ++ (sqChar.toString ++ replaceSq (toUnix path) ++ sqChar.toString)

/-- Command issued by upload_via_sftp (infra/ssh/transfer.rs) to create
    the parent directory of the upload target: the raw backslash-normalised
    parent path is interpolated between double quotes with no further
    escaping. -/
def sftp_parent_mkdir_cmd (parent : String) : String :=
  "mkdir -p " ++ (dqChar.toString ++ toUnix parent ++ dqChar.toString)

/-! ## ConnectionEstablisher (src/infra/ssh/client.rs, auth.rs,
    native_fallback.rs) -/

/-- Mode tag carried by an established connection. -/
inductive AuthMode
  | LibSsh2
  | NativeSsh
deriving Repr, DecidableEq

/-- Server credential record (src/domain/config.rs).  The UI layer stores
    an empty password input as none (main.rs normalises empty strings to
    None before building the record). -/
structure ServerConfig where
  name : String
  host : String
  port : Nat
  user : String
  auth_type : String
  password : Option String
  key_path : Option String
  default_target_dir : String
  is_default : Bool
deriving Repr, DecidableEq

/-- Observable authentication-related events during connect. -/
inductive ConnectEvent
  | passwordAttempt (pwd : String)
  | probeAttempt
deriving Repr, DecidableEq

def isPasswordAttempt : ConnectEvent → Bool
  | ConnectEvent.passwordAttempt _ => true
  | _ => false

/-- Environment for connect_with_log: every outcome the code obtains from
    the network, the SSH library or child processes.  keyAuth aggregates
    the whole key chain of client.rs lines 133 to 209 (explicit key file,
    agent, directory probe); the password branch is modelled in full. -/
structure ConnectEnv where
  tcp : Except String Unit
  sessionNew : Except String Unit
  tcpClone : Except String Unit
  handshake : Except String Unit
  passwordAuth : String → Except String Unit
  keyAuth : Except String Unit
  sessionAuthenticated : Bool
  probe : Except String Unit

/-- Connection handle tagged with its auth mode. -/
structure Handle where
  auth_mode : AuthMode
deriving Repr, DecidableEq

/-- Authentication phase of connect_with_log (client.rs lines 119 to 209)
    together with auth::try_auth_with_password: dispatch on auth_type,
    returning the result and the attempts sent to the server. -/
def auth_phase (env : ConnectEnv) (config : ServerConfig) :
    Except String Unit × List ConnectEvent :=
  if config.auth_type = "password" then
    match config.password with
    | some pwd => (env.passwordAuth pwd, [ConnectEvent.passwordAttempt pwd])
    | none => (Except.error "密码为空", [])
  else if config.auth_type = "key" then
    (env.keyAuth, [])
  else (Except.error "不支持的认证类型", [])

/-- connect_with_log (client.rs lines 64 to 245): TCP connect, session
    setup, handshake, authentication, then on auth success the
    session-authenticated check, and on auth failure one degraded probe
    through the external ssh client (native_fallback.rs); a failed probe
    propagates the original auth error.  The diagnostic log string is
    dropped; the event list records attempts and the probe. -/
def connect_with_log (env : ConnectEnv) (config : ServerConfig) :
    Except String Handle × List ConnectEvent :=
  match env.tcp with
  | Except.error e => (Except.error ("TCP 连接失败: " ++ e), [])
  | Except.ok _ =>
  match env.sessionNew with
  | Except.error e => (Except.error ("Session 创建失败: " ++ e), [])
  | Except.ok _ =>
  match env.tcpClone with
  | Except.error e => (Except.error ("TCP 克隆失败: " ++ e), [])
  | Except.ok _ =>
  match env.handshake with
  | Except.error e => (Except.error ("SSH 握手失败: " ++ e), [])
  | Except.ok _ =>
    let ar := auth_phase env config
    match ar.1 with
    | Except.ok _ =>
      if env.sessionAuthenticated then
        (Except.ok ⟨AuthMode.LibSsh2⟩, ar.2)
      else
        (Except.error "认证未通过", ar.2)
    | Except.error e =>
      match env.probe with
      | Except.ok _ =>
        (Except.ok ⟨AuthMode.NativeSsh⟩, ar.2 ++ [ConnectEvent.probeAttempt])
      | Except.error _ =>
        (Except.error e, ar.2 ++ [ConnectEvent.probeAttempt])

/-- Environment and config exhibiting the missing probe: every stage up
    to authentication succeeds, the password method itself reports
    success, but the session stays unauthenticated while a probe would
    succeed. -/
def probeGapEnv : ConnectEnv :=
  { tcp := Except.ok ()
    sessionNew := Except.ok ()
    tcpClone := Except.ok ()
    handshake := Except.ok ()
    passwordAuth := fun _ => Except.ok ()
    keyAuth := Except.error "unused"
    sessionAuthenticated := false
    probe := Except.ok () }

def probeGapConfig : ServerConfig :=
  { name := "srv"
    host := "203.0.113.7"
    port := 22
    user := "root"
    auth_type := "password"
    password := some "pw"
    key_path := none
    default_target_dir := "/tmp"
    is_default := false }

/-! ## TransferExecutor file level (src/infra/ssh/transfer.rs) -/

/-- Exit information of a finished child process. -/
structure ProcOutput where
  success : Bool
  stderr : String
deriving Repr, DecidableEq

/-- Environment of upload_via_scp: whether the scp binary answers the
    version probe, and the outcome of running the assembled command. -/
structure ScpUpEnv where
  scpAvailable : Bool
  output : Except String ProcOutput
deriving Repr

/-- Environment of download_via_scp: as for upload plus the local parent
    directory creation that precedes the command. -/
structure ScpDownEnv where
  scpAvailable : Bool
  hasParent : Bool
  localDirCreate : Except String Unit
  output : Except String ProcOutput
deriving Repr

/-- Environment of upload_via_sftp.  chunks lists the sizes of the
    successful read-then-write rounds of the 8192-byte buffer loop in
    order; tailError, when present, is the read or write failure ending
    the loop after those rounds.  totalSize is the metadata length taken
    before the loop; opening the file and reading its metadata are folded
    into fileOpen. -/
structure SftpUpEnv where
  fileOpen : Except String Unit
  totalSize : Nat
  hasParent : Bool
  parentChannel : Except String Unit
  sftpSession : Except String Unit
  createRemote : Except String Unit
  chunks : List Nat
  tailError : Option String
deriving Repr

/-- Environment of download_via_sftp; statSize models stat.size with
    unwrap_or 0 applied by the code. -/
structure SftpDownEnv where
  sftpSession : Except String Unit
  openRemote : Except String Unit
  statResult : Except String (Option Nat)
  hasParent : Bool
  localDirCreate : Except String Unit
  localFileCreate : Except String Unit
  chunks : List Nat
  tailError : Option String
deriving Repr

/-- Running byte totals after each buffer round. -/
def prefixSums : List Nat → Nat → List Nat
  | [], _ => []
  | c :: cs, acc => (acc + c) :: prefixSums cs (acc + c)

/-- Fractions delivered inside the buffer loop: transferred over total
    after each round, and nothing at all when the total is zero. -/
def chunkFractions (chunks : List Nat) (total : Nat) : List ℚ :=
  if 0 < total then
    (prefixSums chunks 0).map (fun n : Nat => (n : ℚ) / (total : ℚ))
  else []

/-- upload_via_scp (transfer.rs lines 25 to 71): report 0, require scp,
    build the command, report one tenth, run it, and report 1 on success;
    the result is paired with the delivered fractions in order. -/
def upload_via_scp (env : ScpUpEnv) : Except String Unit × List ℚ :=
  if env.scpAvailable then
    match env.output with
    | Except.error e => (Except.error ("无法执行 scp 命令: " ++ e), [0, 1/10])
    | Except.ok out =>
      if out.success then (Except.ok (), [0, 1/10, 1])
      else (Except.error ("SCP 上传失败: " ++ out.stderr), [0, 1/10])
  else (Except.error "系统中未找到 scp 命令,请安装 OpenSSH 客户端", [0])

/-- download_via_scp (transfer.rs lines 162 to 214): as upload_via_scp
    with the local parent directory created before the command is built. -/
def download_via_scp (env : ScpDownEnv) : Except String Unit × List ℚ :=
  if env.scpAvailable then
    match (if env.hasParent then env.localDirCreate else Except.ok ()) with
    | Except.error e => (Except.error ("无法创建本地目录: " ++ e), [0])
    | Except.ok _ =>
      match env.output with
      | Except.error e => (Except.error ("无法执行 scp 命令: " ++ e), [0, 1/10])
      | Except.ok out =>
        if out.success then (Except.ok (), [0, 1/10, 1])
        else (Except.error ("SCP 下载失败: " ++ out.stderr), [0, 1/10])
  else (Except.error "系统中未找到 scp 命令,请安装 OpenSSH 客户端", [0])

/-- upload_via_sftp (transfer.rs lines 73 to 117): open the local file,
    run the unescaped parent mkdir over a fresh channel, open sftp,
    create the remote file, stream the buffer rounds reporting transferred
    over total when total is positive, and finish with 1. -/
def upload_via_sftp (env : SftpUpEnv) : Except String Unit × List ℚ :=
  match env.fileOpen with
  | Except.error e => (Except.error ("无法打开本地文件: " ++ e), [])
  | Except.ok _ =>
  match (if env.hasParent then env.parentChannel else Except.ok ()) with
  | Except.error e => (Except.error e, [])
  | Except.ok _ =>
  match env.sftpSession with
  | Except.error e => (Except.error ("无法建立 SFTP 会话: " ++ e), [])
  | Except.ok _ =>
  match env.createRemote with
  | Except.error e => (Except.error ("无法在远程创建文件: " ++ e), [])
  | Except.ok _ =>
    let inter := chunkFractions env.chunks env.totalSize
    match env.tailError with
    | some e => (Except.error e, inter)
    | none => (Except.ok (), inter ++ [1])

/-- download_via_sftp (transfer.rs lines 119 to 160): open sftp, open the
    remote file, stat its size with unwrap_or 0, create the local parent
    and file, then stream the buffer rounds and finish with 1. -/
def download_via_sftp (env : SftpDownEnv) : Except String Unit × List ℚ :=
  match env.sftpSession with
  | Except.error e => (Except.error ("无法建立 SFTP 会话: " ++ e), [])
  | Except.ok _ =>
  match env.openRemote with
  | Except.error e => (Except.error ("无法打开远程文件: " ++ e), [])
  | Except.ok _ =>
  match env.statResult with
  | Except.error e => (Except.error e, [])
  | Except.ok sz =>
  match (if env.hasParent then env.localDirCreate else Except.ok ()) with
  | Except.error e => (Except.error ("无法创建本地目录: " ++ e), [])
  | Except.ok _ =>
  match env.localFileCreate with
  | Except.error e => (Except.error ("无法创建本地文件: " ++ e), [])
  | Except.ok _ =>
    let inter := chunkFractions env.chunks (sz.getD 0)
    match env.tailError with
    | some e => (Except.error e, inter)
    | none => (Except.ok (), inter ++ [1])

/-- Which transports one file-level operation tried, in order. -/
inductive TransportTry
  | scpTry
  | sftpTry
deriving Repr, DecidableEq

/-- FileTransfer::upload for SshUploader (transfer.rs lines 283 to 301):
    scp first; on any scp failure the sftp fallback on the open session;
    when both fail the sftp error is wrapped in a context naming both
    failures.  Returns the result, the concatenated fractions of both
    attempts, and the attempt order. -/
def fileTransfer_upload (su : ScpUpEnv) (fu : SftpUpEnv) :
    Except String Unit × List ℚ × List TransportTry :=
  let rscp := upload_via_scp su
  match rscp.1 with
  | Except.ok _ => (Except.ok (), rscp.2, [TransportTry.scpTry])
  | Except.error scpErr =>
    let rsftp := upload_via_sftp fu
    match rsftp.1 with
    | Except.ok _ =>
      (Except.ok (), rscp.2 ++ rsftp.2, [TransportTry.scpTry, TransportTry.sftpTry])
    | Except.error sftpErr =>
      (Except.error ("SCP 和 SFTP 均失败。SCP 错误: " ++ scpErr ++ ": " ++ sftpErr),
       rscp.2 ++ rsftp.2,
       [TransportTry.scpTry, TransportTry.sftpTry])

/-- FileTransfer::download for SshUploader (transfer.rs lines 303 to 324),
    mirroring the upload policy. -/
def fileTransfer_download (sd : ScpDownEnv) (fd : SftpDownEnv) :
    Except String Unit × List ℚ × List TransportTry :=
  let rscp := download_via_scp sd
  match rscp.1 with
  | Except.ok _ => (Except.ok (), rscp.2, [TransportTry.scpTry])
  | Except.error scpErr =>
    let rsftp := download_via_sftp fd
    match rsftp.1 with
    | Except.ok _ =>
      (Except.ok (), rscp.2 ++ rsftp.2, [TransportTry.scpTry, TransportTry.sftpTry])
    | Except.error sftpErr =>
      (Except.error ("SCP 和 SFTP 均失败。SCP 错误: " ++ scpErr ++ ": " ++ sftpErr),
       rscp.2 ++ rsftp.2,
       [TransportTry.scpTry, TransportTry.sftpTry])

/-- Concrete environments showing the fraction drop across the internal
    fallback: scp fails after reporting one tenth, then the sftp fallback
    starts over at 8192 over 100000. -/
def dropScpEnv : ScpUpEnv :=
  { scpAvailable := true
    output := Except.ok { success := false, stderr := "auth denied" } }

def dropSftpEnv : SftpUpEnv :=
  { fileOpen := Except.ok ()
    totalSize := 100000
    hasParent := false
    parentChannel := Except.ok ()
    sftpSession := Except.ok ()
    createRemote := Except.ok ()
    chunks := [8192, 8192, 83616]
    tailError := none }

/-! ## Directory upload (src/infra/ssh/transfer.rs, client.rs) -/

/-- Local filesystem tree entries seen by upload_dir_recursive. -/
inductive LocalNode
  | file (name : String)
  | dir (name : String) (children : List LocalNode)

/-- Remote operations attempted during a directory upload. -/
inductive RemoteOp
  | mkdirOp (path : String)
  | copyOp (path : String)
deriving Repr, DecidableEq

/-- Remote outcomes for each attempted directory creation and each
    attempted file copy, keyed by remote path. -/
structure DirEnv where
  mkdirResult : String → Except String Unit
  uploadResult : String → Except String Unit

/-- PathBuf::join for forward-slash remote paths. -/
def joinPath (dir name : String) : String := dir ++ "/" ++ name

mutual

/-- upload_dir_recursive (transfer.rs lines 216 to 246): create the
    remote directory first, then walk the entries in order, recursing
    into subdirectories and copying plain files through the file-level
    policy; the trace lists the attempted remote operations in order. -/
def upload_dir_rec (env : DirEnv) (children : List LocalNode)
    (remoteDir : String) : Except String Unit × List RemoteOp :=
  match env.mkdirResult remoteDir with
  | Except.error e => (Except.error e, [RemoteOp.mkdirOp remoteDir])
  | Except.ok _ =>
    let r := upload_children env children remoteDir
    (r.1, RemoteOp.mkdirOp remoteDir :: r.2)

/-- Entry loop of upload_dir_recursive; an error on one child stops the
    walk. -/
def upload_children (env : DirEnv) (children : List LocalNode)
    (remoteDir : String) : Except String Unit × List RemoteOp :=
  match children with
  | [] => (Except.ok (), [])
  | LocalNode.file name :: cs =>
    match env.uploadResult (joinPath remoteDir name) with
    | Except.error e =>
      (Except.error e, [RemoteOp.copyOp (joinPath remoteDir name)])
    | Except.ok _ =>
      let rest := upload_children env cs remoteDir
      (rest.1, RemoteOp.copyOp (joinPath remoteDir name) :: rest.2)
  | LocalNode.dir name sub :: cs =>
    let r := upload_dir_rec env sub (joinPath remoteDir name)
    match r.1 with
    | Except.error e => (Except.error e, r.2)
    | Except.ok _ =>
      let rest := upload_children env cs remoteDir
      (rest.1, r.2 ++ rest.2)

end

/-- FileTransfer::upload_dir delegates to upload_dir_recursive on the
    entries of the local root. -/
def upload_dir (env : DirEnv) (children : List LocalNode)
    (remoteDir : String) : Except String Unit × List RemoteOp :=
  upload_dir_rec env children remoteDir

/-- Environment of SshUploader::remote_mkdir (client.rs lines 269 to
    297): channel creation for the LibSsh2 branch, then the exec outcome,
    the close outcome and the remote exit status, all of which the code
    discards; nativeOutput is the discarded outcome of the external ssh
    command in the NativeSsh branch. -/
structure MkdirEnv where
  channelSession : Except String Unit
  execResult : Except String Unit
  closeResult : Except String Unit
  exitStatus : Int
  nativeOutput : Except String ProcOutput
deriving Repr

/-- SshUploader::remote_mkdir: in LibSsh2 mode only channel creation can
    fail; the exec and close results and the remote exit status are
    ignored.  In NativeSsh mode even the process outcome is ignored. -/
def sshUploader_remote_mkdir (env : MkdirEnv) (mode : AuthMode)
    (path : String) : Except String Unit :=
  match mode with
  | AuthMode.LibSsh2 =>
    match env.channelSession with
    | Except.error e => Except.error ("创建 channel 失败: " ++ e)
    | Except.ok _ => Except.ok ()
  | AuthMode.NativeSsh => Except.ok ()

end Flick

namespace Flick

theorem retryTasks_of_no_match (id : Nat) (l : List TransferTask)
    (h : ∀ t ∈ l, t.id ≠ id) : retryTasks id l = (l, false) := by
  induction l with
  | nil => rfl
  | cons t ts ih =>
    have ht : t.id ≠ id := h t (List.mem_cons_self t ts)
    have hts : ∀ u ∈ ts, u.id ≠ id := fun u hu => h u (List.mem_cons_of_mem t hu)
    simp [retryTasks, ht, ih hts]

theorem retryTasks_of_no_failed (id : Nat) (l : List TransferTask)
    (h : ∀ t ∈ l, t.id = id → ∀ e, t.status ≠ TransferStatus.Failed e) :
    retryTasks id l = (l, false) := by
  induction l with
  | nil => rfl
  | cons t ts ih =>
    have hts : ∀ u ∈ ts, u.id = id → ∀ e, u.status ≠ TransferStatus.Failed e :=
      fun u hu => h u (List.mem_cons_of_mem t hu)
    by_cases ht : t.id = id
    · cases hstat : t.status with
      | Failed e => exact absurd hstat (h t (List.mem_cons_self t ts) ht e)
      | Pending => simp [retryTasks, ht, hstat]
      | InProgress => simp [retryTasks, ht, hstat]
      | Completed => simp [retryTasks, ht, hstat]
    · simp [retryTasks, ht, ih hts]

theorem retryTasks_of_failed (id : Nat) (l₁ : List TransferTask)
    (t : TransferTask) (l₂ : List TransferTask) (e : String)
    (h₁ : ∀ u ∈ l₁, u.id ≠ id) (ht : t.id = id)
    (hs : t.status = TransferStatus.Failed e) :
    retryTasks id (l₁ ++ t :: l₂) =
      (l₁ ++
        ({ t with
            status := TransferStatus.Pending
            progress := 0
            started_at := none }) :: l₂,
       true) := by
  induction l₁ with
  | nil => simp [retryTasks, ht, hs]
  | cons u us ih =>
    have hu : u.id ≠ id := h₁ u (List.mem_cons_self u us)
    have hus : ∀ v ∈ us, v.id ≠ id := fun v hv => h₁ v (List.mem_cons_of_mem u hv)
    simp [retryTasks, hu, ih hus]

/-- C5: retry leaves the queue unchanged and returns false unless the task
    with the given id has status Failed; on a Failed task it resets the
    status to Pending, the fraction to 0 and the start time to none,
    keeps every other field and every other task unchanged, and returns
    true. -/
theorem retry_spec (q : TransferQueue) (id : Nat) :
    ((∀ t ∈ q.tasks, t.id = id → ∀ e, t.status ≠ TransferStatus.Failed e) →
        q.retry id = (q, false))
    ∧ (∀ (l₁ : List TransferTask) (t : TransferTask)
          (l₂ : List TransferTask) (e : String),
        q.tasks = l₁ ++ t :: l₂ → (∀ u ∈ l₁, u.id ≠ id) →
        t.id = id → t.status = TransferStatus.Failed e →
        q.retry id =
          ({ q with tasks := l₁ ++
              ({ t with
                  status := TransferStatus.Pending
                  progress := 0
                  started_at := none }) :: l₂ },
           true)) := by
  constructor
  · intro h
    simp [TransferQueue.retry, retryTasks_of_no_failed id q.tasks h]
  · intro l₁ t l₂ e hsplit h₁ ht hs
    have := retryTasks_of_failed id l₁ t l₂ e h₁ ht hs
    simp [TransferQueue.retry, hsplit, this]

/-- Witness for C5 at a concrete queue holding one Failed and one Pending
    task. -/
theorem retry_spec_witness :
    (TransferQueue.retry
        ⟨[⟨0, Direction.Upload, "a", "r", "a", 5, (1 : ℚ)/2,
            TransferStatus.Failed "boom", some 7⟩,
          ⟨1, Direction.Download, "b", "s", "b", 9, 0,
            TransferStatus.Pending, none⟩], 2⟩ 0 =
      (⟨[⟨0, Direction.Upload, "a", "r", "a", 5, 0,
            TransferStatus.Pending, none⟩,
         ⟨1, Direction.Download, "b", "s", "b", 9, 0,
            TransferStatus.Pending, none⟩], 2⟩,
       true))
    ∧ (TransferQueue.retry
        ⟨[⟨1, Direction.Download, "b", "s", "b", 9, 0,
            TransferStatus.Pending, none⟩], 2⟩ 1 =
      (⟨[⟨1, Direction.Download, "b", "s", "b", 9, 0,
            TransferStatus.Pending, none⟩], 2⟩,
       false)) := by
  constructor
  · exact
      (retry_spec
        ⟨[⟨0, Direction.Upload, "a", "r", "a", 5, (1 : ℚ)/2,
            TransferStatus.Failed "boom", some 7⟩,
          ⟨1, Direction.Download, "b", "s", "b", 9, 0,
            TransferStatus.Pending, none⟩], 2⟩ 0).2
        []
        ⟨0, Direction.Upload, "a", "r", "a", 5, (1 : ℚ)/2,
          TransferStatus.Failed "boom", some 7⟩
        [⟨1, Direction.Download, "b", "s", "b", 9, 0,
            TransferStatus.Pending, none⟩]
        "boom" rfl (by simp) rfl rfl
  · exact
      (retry_spec
        ⟨[⟨1, Direction.Download, "b", "s", "b", 9, 0,
            TransferStatus.Pending, none⟩], 2⟩ 1).1
        (by
          intro t ht hid e
          simp at ht
          subst ht
          simp)

theorem modifyFirst_no_match (p : TransferTask → Prop) [DecidablePred p]
    (f : TransferTask → TransferTask) (l : List TransferTask)
    (h : ∀ t ∈ l, ¬ p t) : modifyFirst p f l = l := by
  induction l with
  | nil => rfl
  | cons t ts ih =>
    have ht : ¬ p t := h t (List.mem_cons_self t ts)
    have hts : ∀ u ∈ ts, ¬ p u := fun u hu => h u (List.mem_cons_of_mem t hu)
    simp [modifyFirst, ht, ih hts]

/-- C10: every queue operation is a no-op on an id that no task carries:
    update_progress, mark_completed and mark_failed return the queue
    unchanged (tasks and counter), retry returns false with the queue
    unchanged, and get_task returns none.  All operations are total, so
    none can fail on an unknown id. -/
theorem unknown_id_frame (q : TransferQueue) (id : Nat) (progress : ℚ)
    (now : Nat) (e : String) (h : ∀ t ∈ q.tasks, t.id ≠ id) :
    q.update_progress id progress now = q
    ∧ q.mark_completed id = q
    ∧ q.mark_failed id e = q
    ∧ q.retry id = (q, false)
    ∧ q.get_task id = none := by
  have hmod : ∀ f, modifyFirst (fun t => t.id = id) f q.tasks = q.tasks :=
    fun f => modifyFirst_no_match _ f q.tasks h
  refine ⟨?_, ?_, ?_, ?_, ?_⟩
  · simp [TransferQueue.update_progress, hmod]
  · simp [TransferQueue.mark_completed, hmod]
  · simp [TransferQueue.mark_failed, hmod]
  · simp [TransferQueue.retry, retryTasks_of_no_match id q.tasks h]
  · simp [TransferQueue.get_task, List.find?_eq_none]
    intro t ht
    exact h t ht

/-- Witness for C10 on a concrete one-task queue and the absent id 99. -/
theorem unknown_id_frame_witness :
    (TransferQueue.update_progress
        ⟨[⟨0, Direction.Upload, "a", "r", "a", 5, 0,
            TransferStatus.Pending, none⟩], 1⟩ 99 ((1 : ℚ)/4) 3 =
      ⟨[⟨0, Direction.Upload, "a", "r", "a", 5, 0,
          TransferStatus.Pending, none⟩], 1⟩)
    ∧ (TransferQueue.get_task
        ⟨[⟨0, Direction.Upload, "a", "r", "a", 5, 0,
            TransferStatus.Pending, none⟩], 1⟩ 99 = none) := by
  have h := unknown_id_frame
    ⟨[⟨0, Direction.Upload, "a", "r", "a", 5, 0,
        TransferStatus.Pending, none⟩], 1⟩ 99 ((1 : ℚ)/4) 3 "x"
    (by
      intro t ht
      simp at ht
      subst ht
      simp)
  exact ⟨h.1, h.2.2.2.2⟩

/-- C1: the management commands and SshUploader.remote_mkdir embed the
    single-quote escaping of escape_shell_arg, but the parent-directory
    creation performed during an sftp file transfer interpolates the raw
    path into double quotes: at the parent path /tmp/$(reboot) the issued
    command keeps the command substitution live inside double quotes and
    differs from the escaped form the claim requires, so this call site
    violates the escaping rule. -/
theorem escape_shell_code_bug :
    (∀ p, client_mkdir_cmd p = "mkdir -p " ++ escape_shell_arg (toUnix p))
    ∧ sftp_parent_mkdir_cmd "/tmp/$(reboot)" =
        "mkdir -p " ++ (dqChar.toString ++ "/tmp/$(reboot)" ++ dqChar.toString)
    ∧ sftp_parent_mkdir_cmd "/tmp/$(reboot)" ≠
        "mkdir -p " ++ escape_shell_arg (toUnix "/tmp/$(reboot)") := by
  refine ⟨fun p => rfl, ?_, ?_⟩
  · decide
  · decide

theorem auth_phase_no_probe (env : ConnectEnv) (config : ServerConfig) :
    (auth_phase env config).2.count ConnectEvent.probeAttempt = 0 := by
  unfold auth_phase
  by_cases hp : config.auth_type = "password"
  · simp only [hp, if_true]
    cases config.password <;> simp [List.count_cons, List.count_nil]
  · by_cases hk : config.auth_type = "key" <;> simp [hp, hk]

/-- C3 counterexample: with every stage up to authentication succeeding,
    the password method reporting success but the session left
    unauthenticated, and an external probe that would succeed, connect
    returns the native auth error directly and never runs the probe,
    although native authentication has failed. -/
theorem connect_probe_gap_cex :
    (connect_with_log probeGapEnv probeGapConfig).1 = Except.error "认证未通过"
    ∧ (connect_with_log probeGapEnv probeGapConfig).2.count
        ConnectEvent.probeAttempt = 0
    ∧ probeGapEnv.probe = Except.ok () := by
  exact ⟨rfl, rfl, rfl⟩

/-- C3 amended: after successful TCP connect, session setup and
    handshake, the degraded probe runs exactly when the authentication
    method chain itself returns an error; a successful probe then yields
    the NativeSsh (ExternalFallback) handle and a failed probe propagates
    the original native error.  When the method chain reports success the
    probe never runs, even in the branch where the session is left
    unauthenticated and an auth error is returned. -/
theorem connect_fallback_spec (env : ConnectEnv) (config : ServerConfig)
    (h1 : env.tcp = Except.ok ()) (h2 : env.sessionNew = Except.ok ())
    (h3 : env.tcpClone = Except.ok ()) (h4 : env.handshake = Except.ok ()) :
    (∀ e, (auth_phase env config).1 = Except.error e →
      ((connect_with_log env config).2.count ConnectEvent.probeAttempt = 1
        ∧ (env.probe = Except.ok () →
            (connect_with_log env config).1 = Except.ok ⟨AuthMode.NativeSsh⟩)
        ∧ (∀ pe, env.probe = Except.error pe →
            (connect_with_log env config).1 = Except.error e)))
    ∧ ((auth_phase env config).1 = Except.ok () →
        (connect_with_log env config).2.count ConnectEvent.probeAttempt = 0) := by
  have hno := auth_phase_no_probe env config
  constructor
  · intro e he
    cases hp : env.probe with
    | ok u =>
      refine ⟨?_, fun _ => ?_, fun pe hpe => ?_⟩
      · simp [connect_with_log, h1, h2, h3, h4, he, hp, List.count_append, hno]
      · simp [connect_with_log, h1, h2, h3, h4, he, hp]
      · exact absurd hpe (by simp)
    | error pe0 =>
      refine ⟨?_, fun hok => ?_, fun pe hpe => ?_⟩
      · simp [connect_with_log, h1, h2, h3, h4, he, hp, List.count_append, hno]
      · exact absurd hok (by simp)
      · simp [connect_with_log, h1, h2, h3, h4, he, hp]
  · intro he
    cases hsa : env.sessionAuthenticated <;>
      simp [connect_with_log, h1, h2, h3, h4, he, hsa, hno]

/-- Witness for C3: an environment in which the password is rejected and
    the probe succeeds yields exactly one probe and the NativeSsh
    handle. -/
theorem connect_fallback_spec_witness :
    ((connect_with_log
        { tcp := Except.ok ()
          sessionNew := Except.ok ()
          tcpClone := Except.ok ()
          handshake := Except.ok ()
          passwordAuth := fun _ => Except.error "denied"
          keyAuth := Except.error "unused"
          sessionAuthenticated := true
          probe := Except.ok () }
        probeGapConfig).2.count ConnectEvent.probeAttempt = 1)
    ∧ ((connect_with_log
        { tcp := Except.ok ()
          sessionNew := Except.ok ()
          tcpClone := Except.ok ()
          handshake := Except.ok ()
          passwordAuth := fun _ => Except.error "denied"
          keyAuth := Except.error "unused"
          sessionAuthenticated := true
          probe := Except.ok () }
        probeGapConfig).1 = Except.ok ⟨AuthMode.NativeSsh⟩) := by
  have h := connect_fallback_spec
    { tcp := Except.ok ()
      sessionNew := Except.ok ()
      tcpClone := Except.ok ()
      handshake := Except.ok ()
      passwordAuth := fun _ => Except.error "denied"
      keyAuth := Except.error "unused"
      sessionAuthenticated := true
      probe := Except.ok () }
    probeGapConfig rfl rfl rfl rfl
  have h2 := h.1 "denied" rfl
  exact ⟨h2.1, h2.2.1 rfl⟩

/-- C8: with a password credential the connect flow sends exactly one
    authentication attempt, carrying the provided secret, and an absent
    secret (the stored form of an empty password input) makes the
    authentication phase fail immediately with the empty-password error
    while no attempt at all reaches the server. -/
theorem password_single_attempt (env : ConnectEnv) (config : ServerConfig)
    (hty : config.auth_type = "password")
    (h1 : env.tcp = Except.ok ()) (h2 : env.sessionNew = Except.ok ())
    (h3 : env.tcpClone = Except.ok ()) (h4 : env.handshake = Except.ok ()) :
    (∀ pwd, config.password = some pwd →
      (auth_phase env config =
          (env.passwordAuth pwd, [ConnectEvent.passwordAttempt pwd])
        ∧ (connect_with_log env config).2.filter isPasswordAttempt =
            [ConnectEvent.passwordAttempt pwd]))
    ∧ (config.password = none →
      (auth_phase env config = (Except.error "密码为空", [])
        ∧ (connect_with_log env config).2.filter isPasswordAttempt = [])) := by
  constructor
  · intro pwd hpwd
    have har : auth_phase env config =
        (env.passwordAuth pwd, [ConnectEvent.passwordAttempt pwd]) := by
      simp [auth_phase, hty, hpwd]
    refine ⟨har, ?_⟩
    cases hpa : env.passwordAuth pwd with
    | ok u =>
      cases hsa : env.sessionAuthenticated <;>
        simp [connect_with_log, h1, h2, h3, h4, har, hpa, hsa, isPasswordAttempt]
    | error e =>
      cases hp : env.probe with
      | ok u =>
        simp [connect_with_log, h1, h2, h3, h4, har, hpa, hp, isPasswordAttempt]
      | error pe =>
        simp [connect_with_log, h1, h2, h3, h4, har, hpa, hp, isPasswordAttempt]
  · intro hpwd
    have har : auth_phase env config = (Except.error "密码为空", []) := by
      simp [auth_phase, hty, hpwd]
    refine ⟨har, ?_⟩
    cases hp : env.probe with
    | ok u =>
      simp [connect_with_log, h1, h2, h3, h4, har, hp, isPasswordAttempt]
    | error pe =>
      simp [connect_with_log, h1, h2, h3, h4, har, hp, isPasswordAttempt]

/-- Witness for C8 at a concrete credential with and without a stored
    password. -/
theorem password_single_attempt_witness :
    (auth_phase probeGapEnv probeGapConfig =
        (Except.ok (), [ConnectEvent.passwordAttempt "pw"])
      ∧ (connect_with_log probeGapEnv probeGapConfig).2.filter
          isPasswordAttempt = [ConnectEvent.passwordAttempt "pw"])
    ∧ (auth_phase probeGapEnv { probeGapConfig with password := none } =
        (Except.error "密码为空", [])) := by
  have h := password_single_attempt probeGapEnv probeGapConfig
    rfl rfl rfl rfl rfl
  have h2 := (h.1 "pw" rfl)
  have h3 := password_single_attempt probeGapEnv
    { probeGapConfig with password := none } rfl rfl rfl rfl rfl
  exact ⟨⟨h2.1, h2.2⟩, (h3.2 rfl).1⟩

/-- C7: in every directory upload the trace of attempted remote
    operations begins with the creation of the remote root directory, in
    every environment and for every local tree, so no child copy (and no
    other remote operation) precedes the root mkdir. -/
theorem upload_dir_mkdir_first (env : DirEnv) (children : List LocalNode)
    (root : String) :
    ∃ rest, (upload_dir env children root).2 =
      RemoteOp.mkdirOp root :: rest := by
  cases h : env.mkdirResult root with
  | error e => exact ⟨[], by simp [upload_dir, upload_dir_rec, h]⟩
  | ok u =>
    exact ⟨(upload_children env children root).2,
      by simp [upload_dir, upload_dir_rec, h]⟩

/-- C9: remote_mkdir discards the outcome of the remote command in both
    auth modes, returning ok whatever the exec result, the exit status or
    the external process outcome were (in LibSsh2 mode only the creation
    of the channel itself can fail, before any command runs); and a
    directory upload whose root mkdir silently failed on the remote side
    still proceeds to copy the children. -/
theorem remote_mkdir_silent (env : MkdirEnv) (path root : String)
    (denv : DirEnv)
    (hch : env.channelSession = Except.ok ())
    (hmk : ∀ p, denv.mkdirResult p = Except.ok ())
    (hup : ∀ p, denv.uploadResult p = Except.ok ()) :
    sshUploader_remote_mkdir env AuthMode.NativeSsh path = Except.ok ()
    ∧ sshUploader_remote_mkdir env AuthMode.LibSsh2 path = Except.ok ()
    ∧ upload_dir denv [LocalNode.file "a.txt"] root =
        (Except.ok (),
         [RemoteOp.mkdirOp root, RemoteOp.copyOp (joinPath root "a.txt")]) := by
  refine ⟨rfl, ?_, ?_⟩
  · simp [sshUploader_remote_mkdir, hch]
  · simp [upload_dir, upload_dir_rec, upload_children, hmk, hup]

/-- Witness for C9: a concrete environment whose remote mkdir command
    exits with status 1 and whose external invocation fails outright. -/
theorem remote_mkdir_silent_witness :
    sshUploader_remote_mkdir
        { channelSession := Except.ok ()
          execResult := Except.error "exec refused"
          closeResult := Except.error "close lost"
          exitStatus := 1
          nativeOutput := Except.error "ssh missing" }
        AuthMode.LibSsh2 "/data/incoming" = Except.ok ()
    ∧ upload_dir
        { mkdirResult := fun _ => Except.ok ()
          uploadResult := fun _ => Except.ok () }
        [LocalNode.file "a.txt"] "/data/incoming" =
        (Except.ok (),
         [RemoteOp.mkdirOp "/data/incoming",
          RemoteOp.copyOp (joinPath "/data/incoming" "a.txt")]) := by
  have h := remote_mkdir_silent
    { channelSession := Except.ok ()
      execResult := Except.error "exec refused"
      closeResult := Except.error "close lost"
      exitStatus := 1
      nativeOutput := Except.error "ssh missing" }
    "/data/incoming" "/data/incoming"
    { mkdirResult := fun _ => Except.ok ()
      uploadResult := fun _ => Except.ok () }
    rfl (fun p => rfl) (fun p => rfl)
  exact ⟨h.2.1, h.2.2⟩

/-- C4: for every file-level upload and download the command transport is
    attempted first and alone when it succeeds; any failure of it
    triggers the native attempt on the open session; either success makes
    the operation succeed; and when both fail the single returned error
    text contains both the command-transport and the native failure
    texts. -/
theorem dual_transport_spec (su : ScpUpEnv) (fu : SftpUpEnv)
    (sd : ScpDownEnv) (fd : SftpDownEnv) :
    ((upload_via_scp su).1 = Except.ok () →
        fileTransfer_upload su fu =
          (Except.ok (), (upload_via_scp su).2, [TransportTry.scpTry]))
    ∧ (∀ se, (upload_via_scp su).1 = Except.error se →
        ((fileTransfer_upload su fu).2.2 =
            [TransportTry.scpTry, TransportTry.sftpTry]
          ∧ ((upload_via_sftp fu).1 = Except.ok () →
              (fileTransfer_upload su fu).1 = Except.ok ())
          ∧ (∀ ne, (upload_via_sftp fu).1 = Except.error ne →
              ∃ x y, (fileTransfer_upload su fu).1 =
                Except.error ((x ++ se ++ y) ++ ne))))
    ∧ ((download_via_scp sd).1 = Except.ok () →
        fileTransfer_download sd fd =
          (Except.ok (), (download_via_scp sd).2, [TransportTry.scpTry]))
    ∧ (∀ se, (download_via_scp sd).1 = Except.error se →
        ((fileTransfer_download sd fd).2.2 =
            [TransportTry.scpTry, TransportTry.sftpTry]
          ∧ ((download_via_sftp fd).1 = Except.ok () →
              (fileTransfer_download sd fd).1 = Except.ok ())
          ∧ (∀ ne, (download_via_sftp fd).1 = Except.error ne →
              ∃ x y, (fileTransfer_download sd fd).1 =
                Except.error ((x ++ se ++ y) ++ ne)))) := by
  refine ⟨?_, ?_, ?_, ?_⟩
  · intro h
    simp [fileTransfer_upload, h]
  · intro se hse
    refine ⟨?_, ?_, ?_⟩
    · cases hn : (upload_via_sftp fu).1 <;>
        simp [fileTransfer_upload, hse, hn]
    · intro hn
      simp [fileTransfer_upload, hse, hn]
    · intro ne hn
      exact ⟨"SCP 和 SFTP 均失败。SCP 错误: ", ": ",
        by simp [fileTransfer_upload, hse, hn]⟩
  · intro h
    simp [fileTransfer_download, h]
  · intro se hse
    refine ⟨?_, ?_, ?_⟩
    · cases hn : (download_via_sftp fd).1 <;>
        simp [fileTransfer_download, hse, hn]
    · intro hn
      simp [fileTransfer_download, hse, hn]
    · intro ne hn
      exact ⟨"SCP 和 SFTP 均失败。SCP 错误: ", ": ",
        by simp [fileTransfer_download, hse, hn]⟩

/-- Witness for C4: with scp rejected and the local file unreadable, the
    one surfaced upload error embeds both failure texts; with scp healthy
    the upload succeeds on the first attempt. -/
theorem dual_transport_spec_witness :
    (∃ x y, (fileTransfer_upload dropScpEnv
        { fileOpen := Except.error "no such file"
          totalSize := 0
          hasParent := false
          parentChannel := Except.ok ()
          sftpSession := Except.ok ()
          createRemote := Except.ok ()
          chunks := []
          tailError := none }).1 =
      Except.error
        ((x ++ "SCP 上传失败: auth denied" ++ y) ++ "无法打开本地文件: no such file"))
    ∧ fileTransfer_upload
        { scpAvailable := true
          output := Except.ok { success := true, stderr := "" } }
        { fileOpen := Except.error "no such file"
          totalSize := 0
          hasParent := false
          parentChannel := Except.ok ()
          sftpSession := Except.ok ()
          createRemote := Except.ok ()
          chunks := []
          tailError := none } =
      (Except.ok (), [0, 1/10, 1], [TransportTry.scpTry]) := by
  constructor
  · exact
      ((dual_transport_spec dropScpEnv
        { fileOpen := Except.error "no such file"
          totalSize := 0
          hasParent := false
          parentChannel := Except.ok ()
          sftpSession := Except.ok ()
          createRemote := Except.ok ()
          chunks := []
          tailError := none }
        { scpAvailable := false
          hasParent := false
          localDirCreate := Except.ok ()
          output := Except.error "unused" }
        { sftpSession := Except.ok ()
          openRemote := Except.ok ()
          statResult := Except.ok none
          hasParent := false
          localDirCreate := Except.ok ()
          localFileCreate := Except.ok ()
          chunks := []
          tailError := none }).2.1
        "SCP 上传失败: auth denied" rfl).2.2
        "无法打开本地文件: no such file" rfl
  · exact
      (dual_transport_spec
        { scpAvailable := true
          output := Except.ok { success := true, stderr := "" } }
        { fileOpen := Except.error "no such file"
          totalSize := 0
          hasParent := false
          parentChannel := Except.ok ()
          sftpSession := Except.ok ()
          createRemote := Except.ok ()
          chunks := []
          tailError := none }
        { scpAvailable := false
          hasParent := false
          localDirCreate := Except.ok ()
          output := Except.error "unused" }
        { sftpSession := Except.ok ()
          openRemote := Except.ok ()
          statResult := Except.ok none
          hasParent := false
          localDirCreate := Except.ok ()
          localFileCreate := Except.ok ()
          chunks := []
          tailError := none }).1 rfl

theorem upload_via_scp_trace_cases (env : ScpUpEnv) :
    (upload_via_scp env).2 = [0]
    ∨ (upload_via_scp env).2 = [0, 1/10]
    ∨ (upload_via_scp env).2 = [0, 1/10, 1] := by
  unfold upload_via_scp
  by_cases ha : env.scpAvailable
  · cases ho : env.output with
    | error e => exact Or.inr (Or.inl (by simp [ha, ho]))
    | ok out =>
      by_cases hs : out.success
      · exact Or.inr (Or.inr (by simp [ha, ho, hs]))
      · exact Or.inr (Or.inl (by simp [ha, ho, hs]))
  · exact Or.inl (by simp [ha])

theorem download_via_scp_trace_cases (env : ScpDownEnv) :
    (download_via_scp env).2 = [0]
    ∨ (download_via_scp env).2 = [0, 1/10]
    ∨ (download_via_scp env).2 = [0, 1/10, 1] := by
  unfold download_via_scp
  by_cases ha : env.scpAvailable
  · cases hc : (if env.hasParent then env.localDirCreate else Except.ok ()) with
    | error e => exact Or.inl (by simp [ha, hc])
    | ok u =>
      cases ho : env.output with
      | error e => exact Or.inr (Or.inl (by simp [ha, hc, ho]))
      | ok out =>
        by_cases hs : out.success
        · exact Or.inr (Or.inr (by simp [ha, hc, ho, hs]))
        · exact Or.inr (Or.inl (by simp [ha, hc, ho, hs]))
  · exact Or.inl (by simp [ha])

theorem upload_via_scp_ok_trace (env : ScpUpEnv)
    (h : (upload_via_scp env).1 = Except.ok ()) :
    (upload_via_scp env).2 = [0, 1/10, 1] := by
  unfold upload_via_scp at h ⊢
  by_cases ha : env.scpAvailable
  · cases ho : env.output with
    | error e => rw [ho] at h; simp [ha] at h
    | ok out =>
      by_cases hs : out.success
      · simp [ha, ho, hs]
      · rw [ho] at h; simp [ha, hs] at h
  · simp [ha] at h

theorem download_via_scp_ok_trace (env : ScpDownEnv)
    (h : (download_via_scp env).1 = Except.ok ()) :
    (download_via_scp env).2 = [0, 1/10, 1] := by
  unfold download_via_scp at h ⊢
  by_cases ha : env.scpAvailable
  · cases hc : (if env.hasParent then env.localDirCreate else Except.ok ()) with
    | error e => rw [hc] at h; simp [ha] at h
    | ok u =>
      cases ho : env.output with
      | error e => rw [hc, ho] at h; simp [ha] at h
      | ok out =>
        by_cases hs : out.success
        · simp [ha, hc, ho, hs]
        · rw [hc, ho] at h; simp [ha, hs] at h
  · simp [ha] at h

theorem upload_via_sftp_trace_cases (env : SftpUpEnv) :
    (upload_via_sftp env).2 = []
    ∨ (upload_via_sftp env).2 = chunkFractions env.chunks env.totalSize
    ∨ (upload_via_sftp env).2 =
        chunkFractions env.chunks env.totalSize ++ [1] := by
  unfold upload_via_sftp
  cases h1 : env.fileOpen with
  | error e => exact Or.inl (by simp [h1])
  | ok u1 =>
    cases h2 : (if env.hasParent then env.parentChannel else Except.ok ()) with
    | error e => exact Or.inl (by simp [h1, h2])
    | ok u2 =>
      cases h3 : env.sftpSession with
      | error e => exact Or.inl (by simp [h1, h2, h3])
      | ok u3 =>
        cases h4 : env.createRemote with
        | error e => exact Or.inl (by simp [h1, h2, h3, h4])
        | ok u4 =>
          cases h5 : env.tailError with
          | some e => exact Or.inr (Or.inl (by simp [h1, h2, h3, h4, h5]))
          | none => exact Or.inr (Or.inr (by simp [h1, h2, h3, h4, h5]))

theorem upload_via_sftp_ok_trace (env : SftpUpEnv)
    (h : (upload_via_sftp env).1 = Except.ok ()) :
    (upload_via_sftp env).2 =
      chunkFractions env.chunks env.totalSize ++ [1] := by
  unfold upload_via_sftp at h ⊢
  cases h1 : env.fileOpen with
  | error e => simp [h1] at h
  | ok u1 =>
    cases h2 : (if env.hasParent then env.parentChannel else Except.ok ()) with
    | error e => simp [h1, h2] at h
    | ok u2 =>
      cases h3 : env.sftpSession with
      | error e => simp [h1, h2, h3] at h
      | ok u3 =>
        cases h4 : env.createRemote with
        | error e => simp [h1, h2, h3, h4] at h
        | ok u4 =>
          cases h5 : env.tailError with
          | some e => simp [h1, h2, h3, h4, h5] at h
          | none => simp [h1, h2, h3, h4, h5]

theorem download_via_sftp_trace_cases (env : SftpDownEnv) :
    (download_via_sftp env).2 = []
    ∨ (∃ sz, env.statResult = Except.ok sz ∧
        ((download_via_sftp env).2 = chunkFractions env.chunks (sz.getD 0)
          ∨ (download_via_sftp env).2 =
              chunkFractions env.chunks (sz.getD 0) ++ [1])) := by
  unfold download_via_sftp
  cases h1 : env.sftpSession with
  | error e => exact Or.inl (by simp [h1])
  | ok u1 =>
    cases h2 : env.openRemote with
    | error e => exact Or.inl (by simp [h1, h2])
    | ok u2 =>
      cases h3 : env.statResult with
      | error e => exact Or.inl (by simp [h1, h2, h3])
      | ok sz =>
        cases h4 : (if env.hasParent then env.localDirCreate else Except.ok ()) with
        | error e => exact Or.inl (by simp [h1, h2, h3, h4])
        | ok u4 =>
          cases h5 : env.localFileCreate with
          | error e => exact Or.inl (by simp [h1, h2, h3, h4, h5])
          | ok u5 =>
            cases h6 : env.tailError with
            | some e =>
              exact Or.inr ⟨sz, rfl,
                Or.inl (by simp [h1, h2, h3, h4, h5, h6])⟩
            | none =>
              exact Or.inr ⟨sz, rfl,
                Or.inr (by simp [h1, h2, h3, h4, h5, h6])⟩

theorem download_via_sftp_ok_trace (env : SftpDownEnv)
    (h : (download_via_sftp env).1 = Except.ok ()) :
    ∃ sz, env.statResult = Except.ok sz ∧
      (download_via_sftp env).2 =
        chunkFractions env.chunks (sz.getD 0) ++ [1] := by
  unfold download_via_sftp at h ⊢
  cases h1 : env.sftpSession with
  | error e => simp [h1] at h
  | ok u1 =>
    cases h2 : env.openRemote with
    | error e => simp [h1, h2] at h
    | ok u2 =>
      cases h3 : env.statResult with
      | error e => simp [h1, h2, h3] at h
      | ok sz =>
        cases h4 : (if env.hasParent then env.localDirCreate else Except.ok ()) with
        | error e => simp [h1, h2, h3, h4] at h
        | ok u4 =>
          cases h5 : env.localFileCreate with
          | error e => simp [h1, h2, h3, h4, h5] at h
          | ok u5 =>
            cases h6 : env.tailError with
            | some e => simp [h1, h2, h3, h4, h5, h6] at h
            | none => exact ⟨sz, rfl, by simp [h1, h2, h3, h4, h5, h6]⟩

/-- C6: every successful file-level upload or download delivers at least
    two fractions, the first being 0 and the last being 1; the fractions
    delivered inside the native buffer loop are exactly the running byte
    totals of the buffer rounds divided by the total size; and when the
    total size is 0 the loop delivers no fraction at all, so no division
    by zero occurs. -/
theorem progress_boundary_spec (su : ScpUpEnv) (fu : SftpUpEnv)
    (sd : ScpDownEnv) (fd : SftpDownEnv) :
    ((fileTransfer_upload su fu).1 = Except.ok () →
        ((fileTransfer_upload su fu).2.1.head? = some 0
          ∧ (fileTransfer_upload su fu).2.1.getLast? = some 1
          ∧ 2 ≤ (fileTransfer_upload su fu).2.1.length))
    ∧ ((fileTransfer_download sd fd).1 = Except.ok () →
        ((fileTransfer_download sd fd).2.1.head? = some 0
          ∧ (fileTransfer_download sd fd).2.1.getLast? = some 1
          ∧ 2 ≤ (fileTransfer_download sd fd).2.1.length))
    ∧ (∀ chunks total, 0 < total →
        ∀ q ∈ chunkFractions chunks total,
          ∃ n ∈ prefixSums chunks 0, q = (n : ℚ) / (total : ℚ))
    ∧ (∀ chunks, chunkFractions chunks 0 = []) := by
  refine ⟨?_, ?_, ?_, ?_⟩
  · intro h
    cases hscp : (upload_via_scp su).1 with
    | ok u =>
      cases u
      have ht := upload_via_scp_ok_trace su hscp
      have htrace : (fileTransfer_upload su fu).2.1 = [0, 1/10, 1] := by
        simp [fileTransfer_upload, hscp, ht]
      rw [htrace]
      exact ⟨rfl, rfl, by norm_num⟩
    | error se =>
      cases hsftp : (upload_via_sftp fu).1 with
      | error ne => simp [fileTransfer_upload, hscp, hsftp] at h
      | ok u =>
        cases u
        have ht := upload_via_sftp_ok_trace fu hsftp
        have htrace : (fileTransfer_upload su fu).2.1 =
            (upload_via_scp su).2 ++ (upload_via_sftp fu).2 := by
          simp [fileTransfer_upload, hscp, hsftp]
        rw [htrace, ht]
        have hassoc : (upload_via_scp su).2 ++
            (chunkFractions fu.chunks fu.totalSize ++ [1]) =
            ((upload_via_scp su).2 ++ chunkFractions fu.chunks fu.totalSize)
              ++ [1] := (List.append_assoc _ _ _).symm
        refine ⟨?_, ?_, ?_⟩
        · rcases upload_via_scp_trace_cases su with hc | hc | hc <;>
            rw [hc] <;> rfl
        · rw [hassoc]
          exact List.getLast?_concat _
        · rcases upload_via_scp_trace_cases su with hc | hc | hc <;>
            simp [hc, List.length_append]
  · intro h
    cases hscp : (download_via_scp sd).1 with
    | ok u =>
      cases u
      have ht := download_via_scp_ok_trace sd hscp
      have htrace : (fileTransfer_download sd fd).2.1 = [0, 1/10, 1] := by
        simp [fileTransfer_download, hscp, ht]
      rw [htrace]
      exact ⟨rfl, rfl, by norm_num⟩
    | error se =>
      cases hsftp : (download_via_sftp fd).1 with
      | error ne => simp [fileTransfer_download, hscp, hsftp] at h
      | ok u =>
        cases u
        obtain ⟨sz, hsz, ht⟩ := download_via_sftp_ok_trace fd hsftp
        have htrace : (fileTransfer_download sd fd).2.1 =
            (download_via_scp sd).2 ++ (download_via_sftp fd).2 := by
          simp [fileTransfer_download, hscp, hsftp]
        rw [htrace, ht]
        have hassoc : (download_via_scp sd).2 ++
            (chunkFractions fd.chunks (sz.getD 0) ++ [1]) =
            ((download_via_scp sd).2 ++ chunkFractions fd.chunks (sz.getD 0))
              ++ [1] := (List.append_assoc _ _ _).symm
        refine ⟨?_, ?_, ?_⟩
        · rcases download_via_scp_trace_cases sd with hc | hc | hc <;>
            rw [hc] <;> rfl
        · rw [hassoc]
          exact List.getLast?_concat _
        · rcases download_via_scp_trace_cases sd with hc | hc | hc <;>
            simp [hc, List.length_append]
  · intro chunks total htot q hq
    unfold chunkFractions at hq
    rw [if_pos htot] at hq
    rcases List.mem_map.mp hq with ⟨n, hn, heq⟩
    exact ⟨n, hn, heq.symm⟩
  · intro chunks
    simp [chunkFractions]

/-- Witness for C6: a concrete successful upload and download, and the
    boundary facts instantiated. -/
theorem progress_boundary_spec_witness :
    ((fileTransfer_upload
        { scpAvailable := true
          output := Except.ok { success := true, stderr := "" } }
        dropSftpEnv).2.1.head? = some 0
      ∧ (fileTransfer_upload
        { scpAvailable := true
          output := Except.ok { success := true, stderr := "" } }
        dropSftpEnv).2.1.getLast? = some 1)
    ∧ (∃ n ∈ prefixSums [5] 0, ((5 : ℚ)/10) = (n : ℚ) / ((10 : Nat) : ℚ))
    ∧ chunkFractions [5, 5] 0 = [] := by
  have h := progress_boundary_spec
    { scpAvailable := true
      output := Except.ok { success := true, stderr := "" } }
    dropSftpEnv
    { scpAvailable := false
      hasParent := false
      localDirCreate := Except.ok ()
      output := Except.error "unused" }
    { sftpSession := Except.ok ()
      openRemote := Except.ok ()
      statResult := Except.ok none
      hasParent := false
      localDirCreate := Except.ok ()
      localFileCreate := Except.ok ()
      chunks := []
      tailError := none }
  have h1 := h.1 rfl
  refine ⟨⟨h1.1, h1.2.1⟩, ?_, h.2.2.2 [5, 5]⟩
  exact h.2.2.1 [5] 10 (by norm_num) ((5 : ℚ)/10) (by
    simp [chunkFractions, prefixSums])

theorem prefixSums_head_ge (l : List Nat) (acc : Nat) :
    ∀ b ∈ (prefixSums l acc).head?, acc ≤ b := by
  cases l with
  | nil => simp [prefixSums]
  | cons c cs =>
    intro b hb
    simp [prefixSums] at hb
    omega

theorem prefixSums_chain (l : List Nat) (acc : Nat) :
    List.Chain' (· ≤ ·) (prefixSums l acc) := by
  induction l generalizing acc with
  | nil => simp [prefixSums]
  | cons c cs ih =>
    rw [prefixSums, List.chain'_cons']
    exact ⟨fun b hb => prefixSums_head_ge cs (acc + c) b hb, ih (acc + c)⟩

theorem prefixSums_le (l : List Nat) (acc : Nat) :
    ∀ x ∈ prefixSums l acc, x ≤ acc + l.sum := by
  induction l generalizing acc with
  | nil => simp [prefixSums]
  | cons c cs ih =>
    intro x hx
    rw [prefixSums] at hx
    rcases List.mem_cons.mp hx with h | h
    · subst h
      simp [List.sum_cons]
    · have := ih (acc + c) x h
      simp [List.sum_cons]
      omega

theorem chunkFractions_chain (chunks : List Nat) (total : Nat) :
    List.Chain' (· ≤ ·) (chunkFractions chunks total) := by
  unfold chunkFractions
  by_cases ht : 0 < total
  · rw [if_pos ht]
    refine List.chain'_map_of_chain'
      (fun n : Nat => (n : ℚ) / (total : ℚ)) ?_ (prefixSums_chain chunks 0)
    intro a b hab
    have htq : (0 : ℚ) < (total : ℚ) := by exact_mod_cast ht
    exact (div_le_div_iff_of_pos_right htq).mpr (by exact_mod_cast hab)
  · simp [ht]

theorem chunkFractions_le_one (chunks : List Nat) (total : Nat)
    (h : chunks.sum ≤ total) :
    ∀ q ∈ chunkFractions chunks total, q ≤ 1 := by
  intro q hq
  unfold chunkFractions at hq
  by_cases ht : 0 < total
  · rw [if_pos ht] at hq
    rcases List.mem_map.mp hq with ⟨n, hn, heq⟩
    have hns : n ≤ total := by
      have := prefixSums_le chunks 0 n hn
      omega
    have htq : (0 : ℚ) < (total : ℚ) := by exact_mod_cast ht
    rw [← heq]
    show (n : ℚ) / (total : ℚ) ≤ 1
    rw [div_le_one htq]
    exact_mod_cast hns
  · simp [ht] at hq

theorem chunkTrace_chain (chunks : List Nat) (total : Nat)
    (h : chunks.sum ≤ total) :
    List.Chain' (· ≤ ·) (chunkFractions chunks total ++ [1]) := by
  refine List.Chain'.append (chunkFractions_chain chunks total)
    (List.chain'_singleton 1) ?_
  intro x hx y hy
  simp at hy
  subst hy
  exact chunkFractions_le_one chunks total h x (List.mem_of_mem_getLast? hx)

/-- C2 counterexample: one upload task whose scp attempt fails after
    reporting the fixed fraction one tenth and whose sftp fallback then
    succeeds delivers 0, one tenth, 8192 over 100000, 16384 over 100000,
    1, 1 to its sink, which is not a non-decreasing sequence. -/
theorem progress_monotone_cex :
    (fileTransfer_upload dropScpEnv dropSftpEnv).1 = Except.ok ()
    ∧ ¬ List.Chain' (· ≤ ·) (fileTransfer_upload dropScpEnv dropSftpEnv).2.1 := by
  constructor
  · rfl
  · have htr : (fileTransfer_upload dropScpEnv dropSftpEnv).2.1 =
        [0, 1/10, (8192 : ℚ)/100000, (16384 : ℚ)/100000,
         (100000 : ℚ)/100000, 1] := by
      rfl
    rw [htr]
    intro hch
    rw [List.chain'_cons] at hch
    rw [List.chain'_cons] at hch
    have := hch.2.1
    norm_num at this

/-- C2 amended: within each single transport attempt of an upload or
    download the delivered fractions are non-decreasing (given that the
    bytes streamed do not exceed the size recorded at the start); the
    decrease exhibited by the counterexample only happens across the
    internal fallback from the command-based attempt to the native
    attempt, whose fractions restart from the byte ratio. -/
theorem progress_monotone_within_attempt (su : ScpUpEnv) (fu : SftpUpEnv)
    (sd : ScpDownEnv) (fd : SftpDownEnv)
    (hu : fu.chunks.sum ≤ fu.totalSize)
    (hd : ∀ sz, fd.statResult = Except.ok sz → fd.chunks.sum ≤ sz.getD 0) :
    List.Chain' (· ≤ ·) (upload_via_scp su).2
    ∧ List.Chain' (· ≤ ·) (upload_via_sftp fu).2
    ∧ List.Chain' (· ≤ ·) (download_via_scp sd).2
    ∧ List.Chain' (· ≤ ·) (download_via_sftp fd).2 := by
  refine ⟨?_, ?_, ?_, ?_⟩
  · rcases upload_via_scp_trace_cases su with h | h | h <;> rw [h] <;>
      norm_num [List.chain'_cons, List.chain'_singleton]
  · rcases upload_via_sftp_trace_cases fu with h | h | h <;> rw [h]
    · exact List.chain'_nil
    · exact chunkFractions_chain fu.chunks fu.totalSize
    · exact chunkTrace_chain fu.chunks fu.totalSize hu
  · rcases download_via_scp_trace_cases sd with h | h | h <;> rw [h] <;>
      norm_num [List.chain'_cons, List.chain'_singleton]
  · rcases download_via_sftp_trace_cases fd with h | ⟨sz, hsz, h | h⟩
    · rw [h]
      exact List.chain'_nil
    · rw [h]
      exact chunkFractions_chain fd.chunks (sz.getD 0)
    · rw [h]
      exact chunkTrace_chain fd.chunks (sz.getD 0) (hd sz hsz)

/-- Witness for the amended C2 at concrete environments. -/
theorem progress_monotone_within_attempt_witness :
    List.Chain' (· ≤ ·) (upload_via_scp dropScpEnv).2
    ∧ List.Chain' (· ≤ ·) (upload_via_sftp dropSftpEnv).2 := by
  have h := progress_monotone_within_attempt dropScpEnv dropSftpEnv
    { scpAvailable := false
      hasParent := false
      localDirCreate := Except.ok ()
      output := Except.error "unused" }
    { sftpSession := Except.ok ()
      openRemote := Except.ok ()
      statResult := Except.ok (some 8)
      hasParent := false
      localDirCreate := Except.ok ()
      localFileCreate := Except.ok ()
      chunks := [8]
      tailError := none }
    (by norm_num [dropSftpEnv])
    (by
      intro sz hsz
      simp at hsz
      subst hsz
      norm_num)
  exact ⟨h.1, h.2.1⟩

end Flick
